import Mathlib

/-!
Verification of the retrieval / rerank / context-assembly / streaming core of
the BookMentorAI RAG chatbot notebook (`src/chat.ipynb`).

The notebook's pipeline is embedded shallowly:

* a langchain `Document` becomes `Doc` (an identifier plus its `page_content`);
* the cross-encoder's float scores become an oracle `ce : String → String → Int`
  (the claims only depend on ordering and equality of scores, which integers
  model faithfully);
* `query_doc` mirrors the notebook cell
  `sorted_docs = [doc for _, doc in sorted(zip(result_cross_encodere, docs), reverse=True)]`
  followed by `sorted_docs[:top_k]`.  Python compares the `(score, doc)` tuples
  lexicographically; when two scores are equal the comparison falls through to
  `Document < Document`, which langchain/pydantic `Document`s do not support, so
  the interpreter raises `TypeError`.  For lists shorter than Timsort's minrun
  (64; every call site here passes at most 20 candidates) CPython sorts by
  binary insertion, which compares any newly inserted element against its
  equal-scored partner, so the call raises exactly when two scores collide.
  The embedding therefore returns `Except.error ()` when the score list has a
  duplicate and otherwise the stable descending sort (which, scores being
  distinct there, is the unique descending-by-score order Python produces);
* `callModel` mirrors the generator
  `for chunk in response: if chunk["done"] == False: yield chunk["message"]["content"] else: break`;
* `buildContext` mirrors `"\n".join([doc.page_content for doc in top_docs])`
  from `answer_query`;
* the `while True` conversation loop becomes `convLoop`, turning the printed
  output into a list of `Event`s and the three exit modes (break on a
  terminator, uncaught exception, exhausted stdin) into a `LoopOutcome`.
-/

/-- A document chunk as the notebook handles it: a langchain `Document` with an
identifier and its `page_content` text. -/
structure Doc where
  id : Nat
  page_content : String
deriving DecidableEq

/-- One unit of the ollama response stream: the `done` flag and the
`message.content` payload. -/
structure StreamChunk where
  done : Bool
  content : String
deriving DecidableEq

/-- Embeds `callModel` from `src/chat.ipynb`: iterate over the backend's
chunks, yielding each chunk's content while `done == False`, and break at the
first chunk whose `done` flag is set. -/
def callModel : List StreamChunk → List String
  | [] => []
  | c :: rest => if c.done = false then c.content :: callModel rest else []

/-- Embeds the context construction in `answer_query`:
`context = "\n".join([doc.page_content for doc in top_docs])`. -/
def buildContext : List Doc → String
  | [] => ""
  | [d] => d.page_content
  | d :: e :: rest => d.page_content ++ "\n" ++ buildContext (e :: rest)

/-- Stable insertion of a scored pair into a list already sorted by descending
score: the new pair goes after every earlier pair whose score is at least as
large.  This is the semantics of Python's stable sort restricted to the
success case of `query_doc` (all scores distinct), where it coincides with any
correct descending sort. -/
def insertPairDesc (p : Int × Doc) : List (Int × Doc) → List (Int × Doc)
  | [] => [p]
  | q :: rest => if p.1 ≤ q.1 then q :: insertPairDesc p rest else p :: q :: rest

/-- Sort scored pairs by descending score (stable insertion sort). -/
def sortPairsDesc : List (Int × Doc) → List (Int × Doc)
  | [] => []
  | p :: rest => insertPairDesc p (sortPairsDesc rest)

/-- The `sorted_docs` list of `query_doc` in `src/chat.ipynb`:
`[doc for _, doc in sorted(zip(result_cross_encodere, docs), reverse=True)]`,
where `result_cross_encodere = cross_encoder.predict([(query, doc.page_content)
for doc in docs])` is the score of each document against the query, in input
order. -/
def rerankedDocs (ce : String → String → Int) (query : String)
    (docs : List Doc) : List Doc :=
  (sortPairsDesc ((docs.map fun d => ce query d.page_content).zip docs)).map Prod.snd

/-- Embeds `query_doc(query, docs, top_k)` from `src/chat.ipynb`: score every
`(query, doc.page_content)` pair with the cross-encoder oracle `ce`, sort the
`(score, doc)` pairs in descending order, and slice off the first `top_k`
documents.  Python's `sorted(zip(scores, docs), reverse=True)` compares the
tuples themselves, so two equal scores make it compare the `Document`s, which
raises `TypeError`; that failure is the `Except.error ()` branch. -/
def query_doc (ce : String → String → Int) (query : String) (docs : List Doc)
    (top_k : Nat) : Except Unit (List Doc) :=
  if (docs.map fun d => ce query d.page_content).Nodup then
    Except.ok ((rerankedDocs ce query docs).take top_k)
  else
    Except.error ()

/-- Models Python's `str.lower()` as applied by the conversation loop.  The
loop only compares the lowered input against the ASCII strings `"quit"` and
`"exit"`, on which `String.toLower` and `str.lower()` agree. -/
def pyLower (s : String) : String := ⟨s.data.map Char.toLower⟩

/-- Embeds the loop's terminator test
`user_input.lower() in ["quit", "exit"]` from `src/chat.ipynb`. -/
def isTerminator (s : String) : Bool :=
  (["quit", "exit"] : List String).contains (pyLower s)

/-- The observable output of one pass of the conversation loop, abstracting
the `print` calls of `answer_query` and of the loop itself. -/
inductive Event where
  | question : String → Event
  | answerText : String → Event
  | goodbye : Event
deriving DecidableEq

/-- How a run of the `while True` loop ends: `exitedNormally` is the `break`
on a terminator token (the script then ends with exit code 0), `crashed` is an
uncaught exception propagating out of `answer_query` (the loop has no
`try`/`except`), and `outOfInput` means the supplied stdin lines ran out with
the loop still waiting at `input()`. -/
inductive LoopOutcome where
  | exitedNormally : List Event → LoopOutcome
  | crashed : List Event → Unit → LoopOutcome
  | outOfInput : List Event → LoopOutcome
deriving DecidableEq

/-- Prefix the events already printed by earlier turns onto an outcome. -/
def LoopOutcome.prepend (evs : List Event) : LoopOutcome → LoopOutcome
  | .exitedNormally e2 => .exitedNormally (evs ++ e2)
  | .crashed e2 err => .crashed (evs ++ e2) err
  | .outOfInput e2 => .outOfInput (evs ++ e2)

/-- The process exit code of an ended session: a normal `break` ends the
script with code 0, an uncaught exception with code 1; with input still
expected the session has not ended. -/
def exitCode : LoopOutcome → Option Nat
  | .exitedNormally _ => some 0
  | .crashed _ _ => some 1
  | .outOfInput _ => none

/-- Embeds the `while True:` conversation loop of `src/chat.ipynb`, run over a
list of stdin lines with the body `answer_query` abstracted to `handle`: a
terminator line prints the goodbye message and breaks; otherwise the turn's
events are emitted, except that an exception from the turn propagates and ends
the whole run (there is no error handler in the loop). -/
def convLoop (handle : String → Except Unit (List Event)) :
    List String → LoopOutcome
  | [] => .outOfInput []
  | line :: rest =>
    if isTerminator line then .exitedNormally [.goodbye]
    else
      match handle line with
      | .error e => .crashed [] e
      | .ok evs => LoopOutcome.prepend evs (convLoop handle rest)

/-- Embeds `answer_query(query)` from `src/chat.ipynb`.  The call
`cross_encoder_retriever.get_relevant_documents(query, top_k=10)` first asks
the ensemble retriever for candidates — modelled by the oracle `base`, since
langchain's `EnsembleRetriever` is an external collaborator — and then reranks
them with `query_doc` at `top_k = 10`.  On success the function prints the
`Question:` line and streams the `Answer:` obtained by running `callModel`
over the backend's chunks for the joined context; a `TypeError` raised inside
`query_doc` propagates (nothing is printed for that turn). -/
def answer_query (base : String → List Doc) (ce : String → String → Int)
    (backend : String → String → List StreamChunk) (q : String) :
    Except Unit (List Event) :=
  match query_doc ce q (base q) 10 with
  | .error e => .error e
  | .ok top_docs =>
    .ok [Event.question q,
      Event.answerText (String.join (callModel (backend (buildContext top_docs) q)))]

/-- The answer text a successful turn streams for query `q`: `callModel` run
over the backend's chunks for the context built from the reranked top-10
documents, joined into one string. -/
def turnAnswer (base : String → List Doc) (ce : String → String → Int)
    (backend : String → String → List StreamChunk) (q : String) : String :=
  String.join (callModel (backend (buildContext ((rerankedDocs ce q (base q)).take 10)) q))

/-- The full chatbot session of `src/chat.ipynb`: the conversation loop with
`answer_query` as its body, parameterised by the ensemble-retrieval,
cross-encoder and generation-backend collaborators. -/
def chatLoop (base : String → List Doc) (ce : String → String → Int)
    (backend : String → String → List StreamChunk) : List String → LoopOutcome :=
  convLoop (answer_query base ce backend)

/-- An exact rational number in unnormalized fraction form, used for the
fusion scores `w / (rank + 1)`: keeping the numerator and the (always
positive) denominator separate lets every comparison be an integer
cross-multiplication, with the same values and ordering as the real-number
arithmetic the fusion performs.  Every `Frac` built in this file has a
positive denominator. -/
structure Frac where
  num : Int
  den : Int
deriving DecidableEq

/-- Exact addition of fractions. -/
def Frac.add (a b : Frac) : Frac := ⟨a.num * b.den + b.num * a.den, a.den * b.den⟩

/-- Value comparison of fractions with positive denominators:
`a.num / a.den < b.num / b.den`. -/
def Frac.lt (a b : Frac) : Bool := decide (a.num * b.den < b.num * a.den)

/-- Value equality of fractions with positive denominators:
`a.num / a.den = b.num / b.den`. -/
def Frac.veq (a b : Frac) : Bool := decide (a.num * b.den = b.num * a.den)

/-- A retrieval result as the fusion stage sees it: a chunk id together with
its accumulated fusion score. -/
structure ScoredResult where
  chunkId : Nat
  score : Frac
deriving DecidableEq

/-- Modelled from the spec: the reciprocal-rank contribution of one
retriever's list — a chunk at 0-based rank `i` contributes `w / (i + 1)`, a
chunk absent from the list contributes 0.  (The fusion itself is performed by
langchain's `EnsembleRetriever`, whose code is not part of this repository;
`src/chat.ipynb` only constructs it with `weights = [0.7, 0.3]`.) -/
def rrfContribution (w : Frac) (l : List ScoredResult) (c : Nat) : Frac :=
  match l.findIdx? (fun r => r.chunkId == c) with
  | some i => ⟨w.num, w.den * (Int.ofNat i + 1)⟩
  | none => ⟨0, 1⟩

/-- Modelled from the spec: a chunk's accumulated fusion score is the sum of
its weighted reciprocal-rank contributions from the semantic and the lexical
list. -/
def fusionScore (ws wl : Frac) (sem lex : List ScoredResult) (c : Nat) : Frac :=
  (rrfContribution ws sem c).add (rrfContribution wl lex c)

/-- Modelled from the spec: the first fusion tie-break, presence in more
retrievers' lists. -/
def presenceCount (sem lex : List ScoredResult) (c : Nat) : Nat :=
  (if (sem.map ScoredResult.chunkId).contains c then 1 else 0) +
    (if (lex.map ScoredResult.chunkId).contains c then 1 else 0)

/-- Modelled from the spec: the second fusion tie-break, the chunk's original
semantic rank; chunks absent from the semantic list sort after every chunk
present in it. -/
def semanticRank (sem : List ScoredResult) (c : Nat) : Nat :=
  match sem.findIdx? (fun r => r.chunkId == c) with
  | some i => i
  | none => sem.length

/-- Modelled from the spec: the total order on fused results — descending
accumulated score, ties broken by presence in more lists, then by original
semantic rank, then by chunk id.  `fusedBefore sem lex a b` holds when `a`
sorts at or before `b`. -/
def fusedBefore (sem lex : List ScoredResult) (a b : ScoredResult) : Bool :=
  if Frac.veq a.score b.score = false then Frac.lt b.score a.score
  else if presenceCount sem lex a.chunkId ≠ presenceCount sem lex b.chunkId then
    decide (presenceCount sem lex b.chunkId < presenceCount sem lex a.chunkId)
  else if semanticRank sem a.chunkId ≠ semanticRank sem b.chunkId then
    decide (semanticRank sem a.chunkId < semanticRank sem b.chunkId)
  else decide (a.chunkId ≤ b.chunkId)

/-- Insert a fused result into an already-sorted list, after every element
that sorts at or before it. -/
def insertFused (before : ScoredResult → ScoredResult → Bool) (x : ScoredResult) :
    List ScoredResult → List ScoredResult
  | [] => [x]
  | y :: rest => if before y x then y :: insertFused before x rest else x :: y :: rest

/-- Sort fused results by the fusion order (insertion sort). -/
def sortFused (before : ScoredResult → ScoredResult → Bool) :
    List ScoredResult → List ScoredResult
  | [] => []
  | x :: rest => insertFused before x (sortFused before rest)

/-- Modelled from the spec: weighted reciprocal-rank fusion of the semantic
and lexical result lists — score every chunk id appearing in either list,
then sort by the fusion order.  The output ranges over the union of the two
lists' chunk-id sets, uncapped.  (The source delegates this stage to
langchain's `EnsembleRetriever(retrievers = [semantic_retreive, BM25_retrive],
weights = [0.7, 0.3])`, whose implementation is not in this repository; the
spec's internal renormalization of degenerate weight vectors is irrelevant to
the claims settled here and is not modelled — `ws` and `wl` are the weights
as configured, `0.7` and `0.3` at the only construction site.) -/
def rankFusion (ws wl : Frac) (sem lex : List ScoredResult) : List ScoredResult :=
  let ids := ((sem.map ScoredResult.chunkId) ++ (lex.map ScoredResult.chunkId)).dedup
  sortFused (fusedBefore sem lex)
    (ids.map fun c => ⟨c, fusionScore ws wl sem lex c⟩)

/-- A five-result semantic list, sharing chunk ids 4 and 5 with the lexical
list below: the spec's concrete fusion scenario. -/
def semFive : List ScoredResult :=
  [⟨1, ⟨1, 1⟩⟩, ⟨2, ⟨9, 10⟩⟩, ⟨3, ⟨4, 5⟩⟩, ⟨4, ⟨7, 10⟩⟩, ⟨5, ⟨3, 5⟩⟩]

/-- A five-result lexical list overlapping `semFive` in exactly two chunk
ids. -/
def lexFive : List ScoredResult :=
  [⟨4, ⟨12, 1⟩⟩, ⟨5, ⟨11, 1⟩⟩, ⟨6, ⟨10, 1⟩⟩, ⟨7, ⟨9, 1⟩⟩, ⟨8, ⟨8, 1⟩⟩]

/-! ### Helper lemmas -/

theorem length_insertPairDesc (p : Int × Doc) (l : List (Int × Doc)) :
    (insertPairDesc p l).length = l.length + 1 := by
  induction l with
  | nil => rfl
  | cons q rest ih =>
    unfold insertPairDesc
    split
    · simp [ih]
    · simp

theorem length_sortPairsDesc (l : List (Int × Doc)) :
    (sortPairsDesc l).length = l.length := by
  induction l with
  | nil => rfl
  | cons p rest ih => simp [sortPairsDesc, length_insertPairDesc, ih]

theorem length_rerankedDocs (ce : String → String → Int) (q : String)
    (docs : List Doc) : (rerankedDocs ce q docs).length = docs.length := by
  simp [rerankedDocs, length_sortPairsDesc, List.length_zip]

theorem query_doc_ok_length (ce : String → String → Int) (q : String)
    (docs : List Doc) (top_k : Nat) (out : List Doc)
    (h : query_doc ce q docs top_k = Except.ok out) :
    out.length = min top_k docs.length := by
  unfold query_doc at h
  split at h
  · cases h
    simp [List.length_take, length_rerankedDocs]
  · cases h

theorem length_insertFused (before : ScoredResult → ScoredResult → Bool)
    (x : ScoredResult) (l : List ScoredResult) :
    (insertFused before x l).length = l.length + 1 := by
  induction l with
  | nil => rfl
  | cons y rest ih =>
    unfold insertFused
    split
    · simp [ih]
    · simp

theorem length_sortFused (before : ScoredResult → ScoredResult → Bool)
    (l : List ScoredResult) : (sortFused before l).length = l.length := by
  induction l with
  | nil => rfl
  | cons x rest ih => simp [sortFused, length_insertFused, ih]

/-! ### Claim theorems -/

/-- Claim C1, counterexample: the claim says the assembled context text never
exceeds the configured budget `maxChars`, but `answer_query` builds
`"\n".join([doc.page_content for doc in top_docs])` with no budget at all —
already one retrieved chunk with two characters of text yields a context
longer than a budget of 1. -/
theorem buildContext_exceeds_budget :
    ¬ (buildContext [⟨0, "ab"⟩]).length ≤ 1 := by decide

/-- Claim C1, amended: the context `answer_query` hands to the model is the
concatenation of all retrieved chunks' texts joined by a one-character
newline, so its length is exactly the sum of the chunk text lengths plus one
per separator — every chunk's whole text is included (nothing is excluded or
cut mid-way) and no `maxChars` bound is ever applied. -/
theorem buildContext_length (docs : List Doc) :
    (buildContext docs).length
      = (docs.map fun d => d.page_content.length).sum + (docs.length - 1) := by
  induction docs with
  | nil => rfl
  | cons d rest ih =>
    cases rest with
    | nil => simp [buildContext]
    | cons e rest2 =>
      have hn : ("\n" : String).length = 1 := rfl
      simp [buildContext, String.length_append, ih, hn]
      omega

/-- Claim C2: whenever a `query_doc` rerank call returns an output list, the
output's length is exactly `min top_k (number of candidates)` — the sort
permutes the zipped score/document pairs and the Python slice `[:top_k]`
takes at most `top_k` of them. -/
theorem query_doc_output_length (ce : String → String → Int) (q : String)
    (docs : List Doc) (top_k : Nat) (out : List Doc)
    (h : query_doc ce q docs top_k = Except.ok out) :
    out.length = min top_k docs.length :=
  query_doc_ok_length ce q docs top_k out h

/-- Claim C2, witness: reranking three candidates with distinct scores at
`top_k = 2` returns exactly `min 2 3 = 2` documents. -/
theorem query_doc_output_length_witness :
    ([⟨1, "ccc"⟩, ⟨2, "bb"⟩] : List Doc).length
      = min 2 ([⟨0, "a"⟩, ⟨1, "ccc"⟩, ⟨2, "bb"⟩] : List Doc).length :=
  query_doc_output_length (fun _ t => Int.ofNat t.length) "q"
    [⟨0, "a"⟩, ⟨1, "ccc"⟩, ⟨2, "bb"⟩] 2 [⟨1, "ccc"⟩, ⟨2, "bb"⟩] (by rfl)

/-- Claim C3, counterexample: the claim says a rerank call whose `top_k`
exceeds the candidate count fails with a `ConfigurationError`, but
`query_doc` with one candidate and `top_k = 3` succeeds — the Python slice
`sorted_docs[:top_k]` silently returns the single candidate and no error of
any kind is raised. -/
theorem query_doc_overlarge_topk_no_error :
    query_doc (fun _ t => Int.ofNat t.length) "q" [⟨0, "a"⟩] 3
        = Except.ok [⟨0, "a"⟩]
    ∧ query_doc (fun _ t => Int.ofNat t.length) "q" [⟨0, "a"⟩] 3
        ≠ Except.error () := by
  refine ⟨rfl, ?_⟩
  intro h
  rw [show query_doc (fun _ t => Int.ofNat t.length) "q" [⟨0, "a"⟩] 3
        = Except.ok [⟨0, "a"⟩] from rfl] at h
  exact Except.noConfusion h

/-- Claim C3, amended: a rerank call with `top_k` at or above the candidate
count does not fail on that account; it silently clamps, returning every
candidate — the successful output's length is the candidate count. -/
theorem query_doc_overlarge_topk_clamps (ce : String → String → Int)
    (q : String) (docs : List Doc) (top_k : Nat) (out : List Doc)
    (hk : docs.length ≤ top_k)
    (h : query_doc ce q docs top_k = Except.ok out) :
    out.length = docs.length := by
  rw [query_doc_ok_length ce q docs top_k out h]
  exact Nat.min_eq_right hk

/-- Claim C3, amended, witness: one candidate at `top_k = 3` comes back as a
one-element output, with no error. -/
theorem query_doc_overlarge_topk_clamps_witness :
    ([⟨0, "a"⟩] : List Doc).length = ([⟨0, "a"⟩] : List Doc).length :=
  query_doc_overlarge_topk_clamps (fun _ t => Int.ofNat t.length)
    "q" [⟨0, "a"⟩] 3 [⟨0, "a"⟩] (by decide) (by rfl)

/-- Claim C4: at the failing input — two candidates whose cross-encoder
scores are equal — the rerank call raises instead of preserving the
candidates' input order: `sorted(zip(result_cross_encodere, docs),
reverse=True)` compares the `(score, Document)` tuples, and since the scores
are equal Python falls through to `Document < Document`, which langchain
documents do not support, so the call dies with `TypeError`. -/
theorem query_doc_tie_raises :
    query_doc (fun _ _ => 0) "q" [⟨0, "a"⟩, ⟨1, "b"⟩] 10 = Except.error () := by rfl

/-- Claim C5: the fused list produced by weighted reciprocal-rank fusion
ranges over every chunk id present in either retriever's list, each exactly
once and with no cap, so its length is the cardinality of the union of the
two chunk-id sets; in particular two five-element lists overlapping in two
chunk ids fuse to a list of length 8. -/
theorem rankFusion_length_union :
    (∀ (ws wl : Frac) (sem lex : List ScoredResult),
      (rankFusion ws wl sem lex).length
        = ((sem.map ScoredResult.chunkId).toFinset
            ∪ (lex.map ScoredResult.chunkId).toFinset).card)
    ∧ (rankFusion ⟨7, 10⟩ ⟨3, 10⟩ semFive lexFive).length = 8 := by
  constructor
  · intro ws wl sem lex
    simp [rankFusion, length_sortFused, ← List.toFinset_append, List.card_toFinset]
  · decide

/-- Claim C6: `callModel` yields exactly the contents of the backend's chunks
in emission order, up to but excluding the first chunk flagged `done` — the
output is the content of the longest `done = false` prefix, so nothing is
reordered and consumption stops at the first terminal chunk. -/
theorem callModel_emission_order (s : List StreamChunk) :
    callModel s = (s.takeWhile fun c => !c.done).map StreamChunk.content := by
  induction s with
  | nil => rfl
  | cons c rest ih =>
    cases h : c.done <;> simp [callModel, List.takeWhile_cons, h, ih]

/-- Claim C7, counterexample: with a retriever that returns two candidates the
cross-encoder scores equally, the first query's rerank raises a `TypeError`
mid-turn; the claim says the loop reports it and continues to the next prompt,
but the session crashes instead — the pending `"quit"` line is never read and
the run does not end with exit code 0. -/
theorem chatLoop_error_kills_session :
    chatLoop (fun _ => [⟨0, "x"⟩, ⟨1, "y"⟩]) (fun _ _ => 0) (fun _ _ => [])
        ["tell me about scrum", "quit"]
      = LoopOutcome.crashed [] ()
    ∧ exitCode (chatLoop (fun _ => [⟨0, "x"⟩, ⟨1, "y"⟩]) (fun _ _ => 0)
        (fun _ _ => []) ["tell me about scrum", "quit"]) ≠ some 0 := by
  constructor
  · rfl
  · decide

/-- Claim C7, amended: the conversation loop has no error handler, so a fatal
error in a mid-turn `answer_query` propagates out of the `while True` loop and
terminates the whole session at once — the remaining prompts are never
processed. -/
theorem convLoop_error_propagates (handle : String → Except Unit (List Event))
    (line : String) (rest : List String) (e : Unit)
    (hterm : isTerminator line = false)
    (herr : handle line = Except.error e) :
    convLoop handle (line :: rest) = LoopOutcome.crashed [] e := by
  simp [convLoop, hterm, herr]

/-- Claim C7, amended, witness: a turn body that raises makes the loop crash
immediately, with the rest of the input untouched. -/
theorem convLoop_error_propagates_witness :
    convLoop (fun _ => Except.error ()) ["a", "quit"] = LoopOutcome.crashed [] () :=
  convLoop_error_propagates (fun _ => Except.error ()) "a" ["quit"] ()
    (by decide) rfl

/-- Claim C8, counterexample: the claim promises that every non-terminator
line produces a printed `Question:` / streamed `Answer:` pair before the next
prompt, but the line `"what is scrum"` — not a terminator — produces neither
when the cross-encoder scores its two candidates equally: `answer_query`
reranks before printing anything, the tied-score sort raises `TypeError`, and
the session dies with no events emitted for the turn. -/
theorem chatLoop_query_without_answer :
    isTerminator "what is scrum" = false
    ∧ chatLoop (fun _ => [⟨0, "x"⟩, ⟨1, "y"⟩]) (fun _ _ => 0) (fun _ _ => [])
        ["what is scrum", "quit"]
      = LoopOutcome.crashed [] () := by
  constructor
  · decide
  · rfl

/-- Claim C8, amended: on any input line whose turn does not hit the
tied-score crash (distinct cross-encoder scores for the retrieved candidates;
claims C4/C7 cover the crashing case, where no `Question:`/`Answer:` pair
appears and the session terminates), the loop either recognises a terminator —
`quit` or `exit` compared case-insensitively — and ends the session normally
(exit code 0), or treats the line as a query, printing its `Question:` event
and the streamed `Answer:` text before going on to process the remaining
prompts. -/
theorem chatLoop_turn (base : String → List Doc) (ce : String → String → Int)
    (backend : String → String → List StreamChunk) (line : String)
    (rest : List String)
    (h : ((base line).map fun d => ce line d.page_content).Nodup) :
    chatLoop base ce backend (line :: rest)
      = (if isTerminator line then LoopOutcome.exitedNormally [Event.goodbye]
        else LoopOutcome.prepend
          [Event.question line, Event.answerText (turnAnswer base ce backend line)]
          (chatLoop base ce backend rest))
    ∧ exitCode (LoopOutcome.exitedNormally [Event.goodbye]) = some 0 := by
  refine ⟨?_, rfl⟩
  by_cases hterm : isTerminator line
  · simp [chatLoop, convLoop, hterm]
  · have hq : query_doc ce line (base line) 10
        = Except.ok ((rerankedDocs ce line (base line)).take 10) := by
      unfold query_doc
      rw [if_pos h]
    have hh : answer_query base ce backend line
        = Except.ok [Event.question line,
            Event.answerText (turnAnswer base ce backend line)] := by
      unfold answer_query
      rw [hq]
      rfl
    simp [chatLoop, convLoop, hterm, hh]

/-- Claim C8, amended, witness: the non-terminator line `"hello"` (retriever
returning no candidates, so the turn cannot crash) goes through the query
branch — its `Question:` and `Answer:` events are emitted before the loop
moves on to the rest of the input. -/
theorem chatLoop_turn_witness :
    (chatLoop (fun _ => []) (fun _ _ => 0) (fun _ _ => []) ["hello", "QUIT"]
      = (if isTerminator "hello" then LoopOutcome.exitedNormally [Event.goodbye]
        else LoopOutcome.prepend
          [Event.question "hello",
            Event.answerText (turnAnswer (fun _ => []) (fun _ _ => 0)
              (fun _ _ => []) "hello")]
          (chatLoop (fun _ => []) (fun _ _ => 0) (fun _ _ => []) ["QUIT"])))
    ∧ exitCode (LoopOutcome.exitedNormally [Event.goodbye]) = some 0 :=
  chatLoop_turn (fun _ => []) (fun _ _ => 0) (fun _ _ => []) "hello" ["QUIT"]
    (by decide)

/-- Claim C9: the text `callModel` produces is the concatenation, in order, of
the `message.content` of exactly the chunks strictly before the first chunk
with `done = true`; whatever content the `done` chunk or any later chunk
carries is discarded — the result does not depend on them at all. -/
theorem callModel_content_before_done (s1 : List StreamChunk) (d : StreamChunk)
    (s2 : List StreamChunk) (h1 : ∀ u ∈ s1, u.done = false)
    (h2 : d.done = true) :
    callModel (s1 ++ d :: s2) = s1.map StreamChunk.content
    ∧ String.join (callModel (s1 ++ d :: s2))
        = String.join (s1.map StreamChunk.content) := by
  have key : callModel (s1 ++ d :: s2) = s1.map StreamChunk.content := by
    induction s1 with
    | nil => simp [callModel, h2]
    | cons u rest ih =>
      have hu : u.done = false := h1 u (by simp)
      have hrest : ∀ v ∈ rest, v.done = false := fun v hv => h1 v (by simp [hv])
      simp [callModel, hu, ih hrest]
  exact ⟨key, by rw [key]⟩

/-- Claim C9, witness: the chunks before the terminal one contribute `"He"`
and `"llo"`; the content carried on the `done` chunk and on a chunk after it
is dropped. -/
theorem callModel_content_before_done_witness :
    callModel [⟨false, "He"⟩, ⟨false, "llo"⟩, ⟨true, "LOST"⟩, ⟨false, "tail"⟩]
        = ["He", "llo"]
    ∧ String.join (callModel
        [⟨false, "He"⟩, ⟨false, "llo"⟩, ⟨true, "LOST"⟩, ⟨false, "tail"⟩])
        = String.join ["He", "llo"] :=
  callModel_content_before_done [⟨false, "He"⟩, ⟨false, "llo"⟩] ⟨true, "LOST"⟩
    [⟨false, "tail"⟩] (by decide) rfl

/-- Claim C10: the terminator test lowercases the raw line and compares it,
untrimmed, against `"quit"` and `"exit"`: it accepts exactly the strings whose
lowercasing is character-for-character one of the two tokens, so `" quit"`
(leading space) is not a terminator and is handled as an ordinary query,
producing its `Question:`/`Answer:` events. -/
theorem terminator_check_no_trim :
    (∀ s : String,
      isTerminator s = decide (pyLower s = "quit" ∨ pyLower s = "exit"))
    ∧ isTerminator " quit" = false
    ∧ chatLoop (fun _ => []) (fun _ _ => 0) (fun _ _ => []) [" quit"]
        = LoopOutcome.outOfInput [Event.question " quit", Event.answerText ""] := by
  refine ⟨?_, by decide, by decide⟩
  intro s
  by_cases h1 : pyLower s = "quit" <;> by_cases h2 : pyLower s = "exit" <;>
    simp [isTerminator, beq_iff_eq, h1, h2]
